import Mathlib

/-!
Verification of the git-look-around sync engine and unified search/ranking
layer against its natural-language specification.

The JavaScript/TypeScript sources are shallowly embedded:
* strings are `List Char`, with JS `toLowerCase`, `trim`, `startsWith` and
  `includes` modelled character-wise;
* machine timestamps (milliseconds) are `Int`;
* nullable/optional fields are `Option`, with JS truthiness spelled out at
  each use site (`0`, `null`, `undefined` and `""` are falsy);
* the cooperative stateful handlers (sync guard, cache invalidation) are
  pure state-transition functions.
-/

namespace GitLookAround

/-! ## Character-level string model -/

/-- Character-wise lowercasing, the model of JS `String.prototype.toLowerCase`
for the ASCII strings the extension manipulates. -/
def lowerStr (s : List Char) : List Char := s.map Char.toLower

/-- Whitespace predicate used by the model of JS `String.prototype.trim`. -/
def isWsChar (c : Char) : Bool := c = ' ' || c = '\t' || c = '\n' || c = '\r'

/-- Model of JS `String.prototype.trim`: strip whitespace from both ends. -/
def trimStr (s : List Char) : List Char :=
  ((s.dropWhile isWsChar).reverse.dropWhile isWsChar).reverse

/-- Model of JS `text.includes(q)`: `q` occurs contiguously inside `t`. -/
def strContains (t q : List Char) : Bool :=
  match t with
  | [] => q.isEmpty
  | c :: t' => q.isPrefixOf (c :: t') || strContains t' q

/-! ## Match scoring (`calculateMatchScore` in `useUnifiedSearch`) -/

/-- Embedding of `calculateMatchScore(text, query)`: the 4-tier match score.
The source lowercases both arguments, then tests exact equality (1000),
JS `startsWith` (500), containment of a space-led copy of the query (300)
and plain containment (100), returning 0 otherwise. -/
def calculateMatchScore (text query : List Char) : Nat :=
  if lowerStr text = lowerStr query then 1000
  else if (lowerStr query).isPrefixOf (lowerStr text) then 500
  else if strContains (lowerStr text) (' ' :: lowerStr query) then 300
  else if strContains (lowerStr text) (lowerStr query) then 100
  else 0

/-! ## Sync engine (`src/sync/engine.ts`) -/

/-- `INDEXED_ACTIVITY_THRESHOLD_MS`: repos whose last push is older than
about six months are considered non-indexed by default. -/
def INDEXED_ACTIVITY_THRESHOLD_MS : Int := 6 * 30 * 24 * 60 * 60 * 1000

/-- `MIN_SYNC_INTERVAL_MS`: never sync more often than every 5 minutes. -/
def MIN_SYNC_INTERVAL_MS : Int := 5 * 60 * 1000

/-- `STUCK_TIMEOUT_MS`: a run older than 30 minutes is considered stuck. -/
def STUCK_TIMEOUT_MS : Int := 30 * 60 * 1000

/-- JS truthiness of a nullable number: `null`/`undefined` and `0` are falsy. -/
def numTruthy (v : Option Int) : Bool :=
  match v with
  | none => false
  | some n => n ≠ 0

/-- Embedding of `shouldIndexRepo`. `pushed_at` is the parsed push timestamp
(`none` for a `null` field), the flags keep the source's optional types; the
source tests `repo.indexed_manually` for truthiness, `repo.me_contributing`
with `=== false`, and skips the activity check when `pushed_at` is falsy. -/
def shouldIndexRepo (now : Int) (pushed_at : Option Int)
    (me_contributing indexed_manually : Option Bool) : Bool :=
  if indexed_manually = some true then true
  else if me_contributing = some false then false
  else
    match pushed_at with
    | some lastPush =>
      if now - lastPush > INDEXED_ACTIVITY_THRESHOLD_MS then false else true
    | none => true

/-- The stored repo fields that `runSync` reads back before recomputing a
repo record: only the sticky `indexed_manually` flag matters here. -/
structure StoredRepo where
  indexed_manually : Option Bool
deriving DecidableEq

/-- `existingRepo?.indexed_manually || false` from `runSync`. -/
def preservedIndexedManually (existing : Option StoredRepo) : Bool :=
  match existing with
  | some r => r.indexed_manually.getD false
  | none => false

/-- The `indexed` flag computed by `runSync` for one repo: the manual flag is
read from the existing stored record, then `shouldIndexRepo` is applied to
the freshly checked contributor flag and the repo's push timestamp. -/
def recomputedIndexed (now : Int) (pushed_at : Option Int)
    (meContributing : Bool) (existing : Option StoredRepo) : Bool :=
  shouldIndexRepo now pushed_at (some meContributing)
    (some (preservedIndexedManually existing))

/-- Spec-side helper naming the activity condition: `now - pushed_at` exceeds
the six-month threshold, with a `null` push date never exceeding it. -/
def activityExceeded (now : Int) (pushed_at : Option Int) : Bool :=
  match pushed_at with
  | some p => now - p > INDEXED_ACTIVITY_THRESHOLD_MS
  | none => false

/-- Embedding of the persisted `SyncStatus` record (progress omitted: the
guard logic never reads it). -/
structure SyncStatus where
  isRunning : Bool
  lastStartedAt : Option Int
  lastCompletedAt : Option Int
  lastError : Option String
deriving DecidableEq

/-- The minimum-interval half of `shouldRunSync`: refuse when a previous run
completed less than `MIN_SYNC_INTERVAL_MS` ago. -/
def checkMinInterval (now : Int) (s : SyncStatus) : Bool × SyncStatus :=
  if numTruthy s.lastCompletedAt then
    if now - s.lastCompletedAt.getD 0 < MIN_SYNC_INTERVAL_MS then (false, s)
    else (true, s)
  else (true, s)

/-- Embedding of `shouldRunSync`, returning the decision together with the
status record as left in the store (the stuck/inconsistent branches persist
a reset before the interval check). -/
def shouldRunSync (now : Int) (s : SyncStatus) : Bool × SyncStatus :=
  if s.isRunning && numTruthy s.lastStartedAt then
    if now - s.lastStartedAt.getD 0 > STUCK_TIMEOUT_MS then
      checkMinInterval now
        { s with isRunning := false,
                 lastError := some "Sync timeout - automatically reset" }
    else (false, s)
  else if s.isRunning then
    checkMinInterval now
      { s with isRunning := false,
               lastError := some "Inconsistent state - automatically reset" }
  else checkMinInterval now s

/-- The status reset performed by `forceSync` before it calls `runSync`. -/
def forceSyncStatus (s : SyncStatus) : SyncStatus :=
  { s with isRunning := false, lastCompletedAt := none, lastError := none }

/-- Whether the `runSync` started by `forceSync` passes its entry guard. -/
def forceSyncWouldRun (now : Int) (s : SyncStatus) : Bool :=
  (shouldRunSync now (forceSyncStatus s)).1

/-! ## The per-repo issues/PRs loop of `runSync`

Each indexed repo triggers (preference permitting) one issues
fetch-and-save and one PRs fetch-and-save.  Either chain may reject; the
source attaches a `.catch` to each that logs and still increments the
corresponding progress counter.  The external outcome of each chain is
modelled as an `Except`, and the `.catch` as the match below. -/

/-- The `{syncIssues, syncPullRequests}` preferences record. -/
structure SyncPreferences where
  syncIssues : Bool
  syncPullRequests : Bool
deriving DecidableEq

/-- External outcome of one repo's two fetch-and-save chains: the saved
record ids on success, the rejection message on failure. -/
structure RepoFetchOutcome where
  issuesResult : Except String (List Nat)
  prsResult : Except String (List Nat)

/-- One repo's issues step: on success the records are saved and the counter
is incremented; the `.catch` branch also increments the counter and saves
nothing; with the preference off, the counter is incremented directly. -/
def issuesStep (prefs : SyncPreferences) (o : RepoFetchOutcome)
    (issuesCount : Nat) : Nat × List Nat :=
  if prefs.syncIssues then
    match o.issuesResult with
    | Except.ok items => (issuesCount + 1, items)
    | Except.error _ => (issuesCount + 1, [])
  else (issuesCount + 1, [])

/-- One repo's PRs step, symmetric to `issuesStep`. -/
def prsStep (prefs : SyncPreferences) (o : RepoFetchOutcome)
    (prsCount : Nat) : Nat × List Nat :=
  if prefs.syncPullRequests then
    match o.prsResult with
    | Except.ok items => (prsCount + 1, items)
    | Except.error _ => (prsCount + 1, [])
  else (prsCount + 1, [])

/-- The `for (const repo of indexedRepos)` loop of `runSync`: threads the two
progress counters through every indexed repo and accumulates everything that
got saved.  It is a total function: every failure is absorbed by a step. -/
def runSyncLoop (prefs : SyncPreferences) :
    List RepoFetchOutcome → Nat → Nat → Nat × Nat × List Nat × List Nat
  | [], issuesCount, prsCount => (issuesCount, prsCount, [], [])
  | o :: rest, issuesCount, prsCount =>
    let si := issuesStep prefs o issuesCount
    let sp := prsStep prefs o prsCount
    let r := runSyncLoop prefs rest si.1 sp.1
    (r.1, r.2.1, si.2 ++ r.2.2.1, sp.2 ++ r.2.2.2)

/-! ## Unified search data model (`useUnifiedSearch`) -/

/-- The `SearchResultType` tag: `'repo' | 'pr' | 'issue'`. -/
inductive RType where
  | repo
  | pr
  | issue
deriving DecidableEq

/-- `TYPE_WEIGHTS`: repos are most important, then PRs, then issues. -/
def TYPE_WEIGHTS : RType → Nat
  | RType.repo => 100
  | RType.pr => 10
  | RType.issue => 5

/-- The repo-record fields read by `buildSearchResults`. -/
structure RepoRec where
  id : Nat
  full_name : List Char
  description : Option (List Char)
  last_visited_at : Option Int
  pushed_at : Option Int
deriving DecidableEq

/-- The issue/PR-record fields read by `buildSearchResults` (the two record
types are read identically here). -/
structure ItemRec where
  id : Nat
  number : Nat
  title : List Char
  last_visited_at : Option Int
  updated_at : Int
deriving DecidableEq

/-- A `SearchableEntity`: one repo together with its issues and PRs. -/
structure SearchEntity where
  repo : RepoRec
  issues : List ItemRec
  prs : List ItemRec
deriving DecidableEq

/-- The `SearchResultItem` fields that scoring, sorting and the first-result
cache read. -/
structure SearchResultItem where
  rtype : RType
  entityId : Nat
  title : List Char
  repoName : Option (List Char)
  number : Option Nat
  score : Nat
  lastVisitedAt : Option Int
  updatedAt : Option Int
deriving DecidableEq

/-- Decimal digits of a number, the model of JS `number.toString()` for the
natural numbers that issue/PR numbers are. -/
def natToStr (n : Nat) : List Char := Nat.toDigits 10 n

/-- `normalizedQuery && number.toString().includes(normalizedQuery)`: the
number-match test applied to PRs and issues. -/
def numberMatches (number : Nat) (nq : List Char) : Bool :=
  !nq.isEmpty && strContains (natToStr number) nq

/-- The match score given to one issue/PR: the fixed 800 tier when the
number matches, otherwise the title's `calculateMatchScore`. -/
def itemMatchScore (title : List Char) (number : Nat) (nq : List Char) : Nat :=
  if numberMatches number nq then 800 else calculateMatchScore title nq

/-- The repo match score: `max` of the name score and the description score,
with a `null`/empty description contributing 0 (JS falsiness). -/
def repoMatchScore (repo : RepoRec) (nq : List Char) : Nat :=
  max (calculateMatchScore repo.full_name nq)
    (match repo.description with
     | some d => if d.isEmpty then 0 else calculateMatchScore d nq
     | none => 0)

/-- The repo entry pushed by `buildSearchResults` for one entity, when the
query is empty or the repo matches. -/
def repoResult (repo : RepoRec) (nq : List Char) : List SearchResultItem :=
  if nq.isEmpty || repoMatchScore repo nq > 0 then
    [{ rtype := RType.repo, entityId := repo.id, title := repo.full_name,
       repoName := none, number := none,
       score := repoMatchScore repo nq * TYPE_WEIGHTS RType.repo,
       lastVisitedAt := repo.last_visited_at,
       updatedAt := repo.pushed_at }]
  else []

/-- The entry pushed by `buildSearchResults` for one PR of an entity. -/
def prResult (repo : RepoRec) (pr : ItemRec) (nq : List Char) :
    List SearchResultItem :=
  if nq.isEmpty || calculateMatchScore pr.title nq > 0 || numberMatches pr.number nq then
    [{ rtype := RType.pr, entityId := pr.id, title := pr.title,
       repoName := some repo.full_name, number := some pr.number,
       score := itemMatchScore pr.title pr.number nq * TYPE_WEIGHTS RType.pr,
       lastVisitedAt := pr.last_visited_at,
       updatedAt := some pr.updated_at }]
  else []

/-- The entry pushed by `buildSearchResults` for one issue of an entity. -/
def issueResult (repo : RepoRec) (issue : ItemRec) (nq : List Char) :
    List SearchResultItem :=
  if nq.isEmpty || calculateMatchScore issue.title nq > 0 || numberMatches issue.number nq then
    [{ rtype := RType.issue, entityId := issue.id, title := issue.title,
       repoName := some repo.full_name, number := some issue.number,
       score := itemMatchScore issue.title issue.number nq * TYPE_WEIGHTS RType.issue,
       lastVisitedAt := issue.last_visited_at,
       updatedAt := some issue.updated_at }]
  else []

/-- Embedding of `buildSearchResults(query)`: normalize the query, then per
entity push the repo entry, the PR entries, then the issue entries. -/
def buildSearchResults (entities : List SearchEntity) (query : List Char) :
    List SearchResultItem :=
  entities.flatMap fun entity =>
    repoResult entity.repo (lowerStr (trimStr query))
    ++ entity.prs.flatMap (fun pr => prResult entity.repo pr (lowerStr (trimStr query)))
    ++ entity.issues.flatMap (fun issue => issueResult entity.repo issue (lowerStr (trimStr query)))

/-- The JS comparator of `sortResults`: score first when there is a query,
then last-visited (missing as 0), then updated (missing as 0), all
descending. -/
def jsCompare (hasQuery : Bool) (a b : SearchResultItem) : Int :=
  if hasQuery = true ∧ a.score ≠ b.score then (b.score : Int) - (a.score : Int)
  else if a.lastVisitedAt.getD 0 ≠ b.lastVisitedAt.getD 0 then
    b.lastVisitedAt.getD 0 - a.lastVisitedAt.getD 0
  else b.updatedAt.getD 0 - a.updatedAt.getD 0

/-- The non-strict ordering induced by the comparator: `a` may come before
`b` exactly when the comparator is non-positive. -/
def resLE (hasQuery : Bool) (a b : SearchResultItem) : Prop :=
  jsCompare hasQuery a b ≤ 0

instance (hq : Bool) : DecidableRel (resLE hq) := fun a b =>
  inferInstanceAs (Decidable (jsCompare hq a b ≤ 0))

/-- Embedding of `sortResults(results, hasQuery)`: a stable sort by the
comparator (JS `Array.prototype.sort` is stable; the comparator induces a
total preorder, so any comparator-respecting stable sort is faithful). -/
def sortResults (results : List SearchResultItem) (hasQuery : Bool) :
    List SearchResultItem :=
  List.insertionSort (resLE hasQuery) results

/-- The full pipeline of `searchResults`: build, then sort with
`hasQuery = !!query.trim()`. -/
def searchResults (entities : List SearchEntity) (query : List Char) :
    List SearchResultItem :=
  sortResults (buildSearchResults entities query) (!(trimStr query).isEmpty)

/-- The number of candidate items held by a list of entities: one repo plus
all its PRs and issues, per entity. -/
def totalCandidates (entities : List SearchEntity) : Nat :=
  (entities.map fun e => 1 + e.prs.length + e.issues.length).sum

/-- The ordering the spec describes for tie-breaking and the empty query:
later-visited first (missing visit time treated as 0), then more recently
updated first (missing treated as 0). -/
def recencyGe (a b : SearchResultItem) : Prop :=
  b.lastVisitedAt.getD 0 < a.lastVisitedAt.getD 0 ∨
    (a.lastVisitedAt.getD 0 = b.lastVisitedAt.getD 0 ∧
      b.updatedAt.getD 0 ≤ a.updatedAt.getD 0)

/-- The ordering the spec describes for a non-empty query: higher score
first, ties broken by `recencyGe`. -/
def scoreRecencyGe (a b : SearchResultItem) : Prop :=
  b.score < a.score ∨ (a.score = b.score ∧ recencyGe a b)

/-! ## Background first-result cache (`entrypoints/background.ts` and
`useSearchCache`) -/

/-- The two import progress event kinds. -/
inductive ProgressEvent where
  | repos_saved
  | repo_processed
deriving DecidableEq

/-- `SYNC_PROGRESS_THROTTLE_MS`: progress updates at most every 2 seconds. -/
def SYNC_PROGRESS_THROTTLE_MS : Int := 2000

/-- The background script's cache-related state: the persisted first-result
cache, the throttle clock, and the generation counter. -/
structure BackgroundCacheState where
  firstResult : Option SearchResultItem
  lastSyncProgressUpdate : Int
  cacheGeneration : Nat
deriving DecidableEq

/-- Embedding of `getFirstResultToCache(results, currentRepoName)`: cache the
second result instead of the first when the first is the repo currently open
(the quick-switcher will swap it away); an absent or empty current repo name
is falsy in the source. -/
def getFirstResultToCache (results : List SearchResultItem)
    (currentRepoName : Option (List Char)) : Option SearchResultItem :=
  match results with
  | [] => none
  | first :: rest =>
    match currentRepoName with
    | none => some first
    | some cur =>
      if cur.isEmpty then some first
      else if (first.rtype = RType.repo && first.title = cur)
          || (first.rtype ≠ RType.repo && first.repoName = some cur) then
        match rest with
        | second :: _ => some second
        | [] => some first
      else some first

/-- Embedding of `handleImportProgress(event)`: a `repo_processed` event
inside the 2-second throttle window returns without touching anything;
otherwise the throttle clock is reset, the first-result cache cleared and
the generation bumped. -/
def handleImportProgress (event : ProgressEvent) (now : Int)
    (s : BackgroundCacheState) : BackgroundCacheState :=
  if event = ProgressEvent.repo_processed ∧
      now - s.lastSyncProgressUpdate < SYNC_PROGRESS_THROTTLE_MS then s
  else
    { firstResult := none, lastSyncProgressUpdate := now,
      cacheGeneration := s.cacheGeneration + 1 }

/-- Embedding of the `RECORD_VISIT` handler's cache effect: clear the
first-result cache and bump the generation, unconditionally. -/
def handleRecordVisit (s : BackgroundCacheState) : BackgroundCacheState :=
  { s with firstResult := none, cacheGeneration := s.cacheGeneration + 1 }

/-- Embedding of the `SEARCH` handler's cache effect for an empty query with
a non-empty result list: store the freshly computed first result whole. -/
def handleEmptyQuerySearch (results : List SearchResultItem)
    (currentRepoName : Option (List Char)) (s : BackgroundCacheState) :
    BackgroundCacheState :=
  if results.isEmpty then s
  else
    match getFirstResultToCache results currentRepoName with
    | some r => { s with firstResult := some r }
    | none => s

/-! ## Concrete records used by the witnesses and counterexamples -/

/-- A repo whose name contains `"42"` only as a plain substring. -/
def repo42 : RepoRec :=
  { id := 1, full_name := "my-42-app".toList, description := none,
    last_visited_at := none, pushed_at := some 100 }

/-- A PR numbered 42 titled `"Refactor auth"`. -/
def pr42 : ItemRec :=
  { id := 2, number := 42, title := "Refactor auth".toList,
    last_visited_at := none, updated_at := 50 }

/-- The entity list for the claim C5 end-to-end scenario. -/
def ents42 : List SearchEntity := [{ repo := repo42, issues := [], prs := [pr42] }]

/-- A concrete cached search result used in the cache-invalidation
scenarios. -/
def itemA : SearchResultItem :=
  { rtype := RType.repo, entityId := 1, title := "acme/tools".toList,
    repoName := none, number := none, score := 0,
    lastVisitedAt := none, updatedAt := none }

/-- A repo with both a visit and a description, for the C6 witness. -/
def repoA : RepoRec :=
  { id := 1, full_name := "alpha-repo".toList,
    description := some "tools".toList,
    last_visited_at := some 500, pushed_at := some 100 }

/-- An unmatched repo for the C6 witness. -/
def repoB : RepoRec :=
  { id := 2, full_name := "beta".toList, description := none,
    last_visited_at := none, pushed_at := some 900 }

/-- A visited PR for the C6 witness. -/
def pr1 : ItemRec :=
  { id := 3, number := 7, title := "alpha feature".toList,
    last_visited_at := some 50, updated_at := 200 }

/-- An unvisited issue for the C6 witness. -/
def issue1 : ItemRec :=
  { id := 4, number := 12, title := "fix alpha bug".toList,
    last_visited_at := none, updated_at := 300 }

/-- The entity list for the C6 witness. -/
def ents0 : List SearchEntity :=
  [{ repo := repoA, issues := [issue1], prs := [pr1] },
   { repo := repoB, issues := [], prs := [] }]

/-! ## String lemmas -/

/-- `strContains` agrees with the mathematical infix relation. -/
theorem strContains_iff_isInfix (t q : List Char) :
    strContains t q = true ↔ q <:+: t := by
  induction t with
  | nil =>
    simp [strContains, List.isEmpty_iff, List.infix_nil]
  | cons c t' ih =>
    simp [strContains, List.infix_cons_iff, ih]

/-- The score function only takes the five advertised values. -/
theorem calculateMatchScore_values (text query : List Char) :
    calculateMatchScore text query = 1000 ∨ calculateMatchScore text query = 500 ∨
    calculateMatchScore text query = 300 ∨ calculateMatchScore text query = 100 ∨
    calculateMatchScore text query = 0 := by
  unfold calculateMatchScore
  split_ifs <;> simp

/-- The score function never produces the number-match tier 800. -/
theorem calculateMatchScore_ne_800 (text query : List Char) :
    calculateMatchScore text query ≠ 800 := by
  rcases calculateMatchScore_values text query with h | h | h | h | h <;> omega

/-- Evaluating `Char.ofNat` at a valid code point recovers the code point. -/
theorem toNat_ofNat_of_valid {m : Nat} (h : m.isValidChar) :
    (Char.ofNat m).toNat = m := by
  rw [Char.ofNat, dif_pos h]
  rfl

/-- Lowercasing a character twice is the same as lowercasing once. -/
theorem toLower_toLower (c : Char) : c.toLower.toLower = c.toLower := by
  unfold Char.toLower
  by_cases h : c.toNat ≥ 65 ∧ c.toNat ≤ 90
  · rw [if_pos h]
    have hv : (c.toNat + 32).isValidChar := Or.inl (by omega)
    rw [if_neg]
    rw [toNat_ofNat_of_valid hv]
    omega
  · rw [if_neg h, if_neg h]

/-- Lowercasing a string twice is the same as lowercasing once. -/
theorem lowerStr_lowerStr (s : List Char) : lowerStr (lowerStr s) = lowerStr s := by
  unfold lowerStr
  rw [List.map_map]
  exact List.map_congr_left fun a _ => toLower_toLower a

/-- A lowercased string is empty exactly when the original string is. -/
theorem lowerStr_eq_nil_iff (s : List Char) : lowerStr s = [] ↔ s = [] := by
  simp [lowerStr]

/-! ## Comparator lemmas -/

/-- With a query, the comparator orders by score then recency. -/
theorem resLE_true_iff (a b : SearchResultItem) :
    resLE true a b ↔ scoreRecencyGe a b := by
  unfold resLE jsCompare scoreRecencyGe recencyGe
  split_ifs with h1 h2 <;> simp only [true_and, not_and, not_not] at h1 <;> omega

/-- Without a query, the comparator orders by recency alone. -/
theorem resLE_false_iff (a b : SearchResultItem) :
    resLE false a b ↔ recencyGe a b := by
  unfold resLE jsCompare recencyGe
  rw [if_neg (by simp)]
  split_ifs with h <;> omega

instance (hq : Bool) : IsTotal SearchResultItem (resLE hq) := by
  constructor
  intro a b
  cases hq
  · rw [resLE_false_iff, resLE_false_iff]
    unfold recencyGe
    omega
  · rw [resLE_true_iff, resLE_true_iff]
    unfold scoreRecencyGe recencyGe
    omega

instance (hq : Bool) : IsTrans SearchResultItem (resLE hq) := by
  constructor
  intro a b c hab hbc
  cases hq
  · rw [resLE_false_iff] at hab hbc ⊢
    unfold recencyGe at hab hbc ⊢
    omega
  · rw [resLE_true_iff] at hab hbc ⊢
    unfold scoreRecencyGe recencyGe at hab hbc ⊢
    omega

/-! ## Claim theorems -/

/-- Claim C1: for every repo processed by a full sync, the recomputed
`indexed` flag is `true` if the preserved `indexed_manually` flag is true;
otherwise `false` if `me_contributing` is false; otherwise `false` if
`now - pushed_at` exceeds the six-month activity threshold; otherwise
`true`. -/
theorem recomputedIndexed_spec (now : Int) (pushed_at : Option Int)
    (meContributing : Bool) (existing : Option StoredRepo) :
    recomputedIndexed now pushed_at meContributing existing =
      (if preservedIndexedManually existing then true
       else if !meContributing then false
       else if activityExceeded now pushed_at then false
       else true) := by
  unfold recomputedIndexed shouldIndexRepo activityExceeded
  cases preservedIndexedManually existing <;>
    cases meContributing <;>
    cases pushed_at <;>
    simp

/-- Claim C9: a repo with a `null` `pushed_at`, a manual flag that is false
or unset, and a contributing flag other than `false` is classified as
indexed — the activity-threshold check is skipped entirely. -/
theorem shouldIndexRepo_null_pushed (now : Int) (mc im : Option Bool)
    (him : im = none ∨ im = some false) (hmc : mc ≠ some false) :
    shouldIndexRepo now none mc im = true := by
  unfold shouldIndexRepo
  rcases him with rfl | rfl <;> simp [hmc]

/-- Witness for claim C9 at a concrete never-pushed repo. -/
theorem shouldIndexRepo_null_pushed_witness :
    shouldIndexRepo 99999999999 none (some true) none = true :=
  shouldIndexRepo_null_pushed 99999999999 (some true) none (Or.inl rfl)
    (by decide)

/-- Claim C2 counterexample: a status marked running whose
`lastStartedAt` is 1 second old (far below the 30-minute stuck timeout);
the claim says `forceSync` must not start a new run here, but the reset it
performs clears `isRunning`, so the guard passes and the run starts. -/
theorem forceSync_stuck_guard_cex :
    (⟨true, some 999000, some 5000, none⟩ : SyncStatus).isRunning = true ∧
    (1000000 : Int) - 999000 < STUCK_TIMEOUT_MS ∧
    forceSyncWouldRun 1000000 ⟨true, some 999000, some 5000, none⟩ = true :=
  ⟨rfl, by decide, by decide⟩

/-- Claim C2 (amended): `forceSync` clears `lastCompletedAt` and
`lastError`, bypassing the minimum-interval guard, and also clears
`isRunning`, so the stuck-timeout guard never applies either: whatever the
prior status, the run it starts passes the entry guard. -/
theorem forceSync_bypasses_both_guards (now : Int) (s : SyncStatus) :
    (forceSyncStatus s).isRunning = false ∧
    (forceSyncStatus s).lastCompletedAt = none ∧
    (forceSyncStatus s).lastError = none ∧
    forceSyncWouldRun now s = true := by
  refine ⟨rfl, rfl, rfl, ?_⟩
  unfold forceSyncWouldRun shouldRunSync forceSyncStatus checkMinInterval numTruthy
  simp

/-- Claim C3 counterexample: the query `"4"` is not equal to the number 42,
yet the PR numbered 42 receives the fixed 800 tier (its title alone would
score 0), because the source tests substring containment, not equality. -/
theorem number_tier_cex :
    itemMatchScore "Refactor auth".toList 42 "4".toList = 800 ∧
    natToStr 42 ≠ "4".toList ∧
    calculateMatchScore "Refactor auth".toList "4".toList = 0 :=
  ⟨by decide, by decide, by decide⟩

/-- Claim C3 (amended): an issue or PR receives the fixed 800 match tier,
overriding its title score, exactly when the normalized query is non-empty
and occurs as a substring of the decimal representation of the item's
number. -/
theorem itemMatchScore_eq_800_iff (title : List Char) (n : Nat)
    (nq : List Char) :
    itemMatchScore title n nq = 800 ↔ numberMatches n nq = true := by
  unfold itemMatchScore
  cases hm : numberMatches n nq
  · simp only [hm, Bool.false_eq_true, if_false]
    exact iff_of_false (calculateMatchScore_ne_800 title nq) (by simp)
  · simp [hm]

/-- A string that does not contain the query contains neither the query
itself, a space-led copy of it, a copy at the start, nor equals it. -/
theorem not_contains_elims {t q : List Char}
    (hc : strContains t q = false) :
    t ≠ q ∧ q.isPrefixOf t = false ∧ strContains t (' ' :: q) = false := by
  have hni : ¬ q <:+: t := fun h => by
    rw [← strContains_iff_isInfix] at h
    simp [hc] at h
  refine ⟨?_, ?_, ?_⟩
  · rintro rfl
    exact hni (List.infix_refl _)
  · cases hp : q.isPrefixOf t
    · rfl
    · exact absurd ((List.isPrefixOf_iff_prefix.mp hp).isInfix) hni
  · cases hw : strContains t (' ' :: q)
    · rfl
    · have h1 : (' ' :: q) <:+: t := (strContains_iff_isInfix t _).mp hw
      have h2 : q <:+: (' ' :: q) := (List.suffix_cons ' ' q).isInfix
      exact absurd (h2.trans h1) hni

/-- Claim C4: the per-field match score is exactly 1000 on an exact match,
500 on a prefix-style match, 300 on a space-boundary substring match, 100 on
any other substring match and 0 when the query does not occur; hence on
`"my-repo"` the queries `"my-repo"`, `"my"`, `"rep"` and `"xyz"` score in
strictly decreasing order ending at 0. -/
theorem calculateMatchScore_tiers (text query : List Char) :
    (lowerStr text = lowerStr query → calculateMatchScore text query = 1000) ∧
    (lowerStr text ≠ lowerStr query →
      (lowerStr query).isPrefixOf (lowerStr text) = true →
      calculateMatchScore text query = 500) ∧
    (lowerStr text ≠ lowerStr query →
      (lowerStr query).isPrefixOf (lowerStr text) = false →
      strContains (lowerStr text) (' ' :: lowerStr query) = true →
      calculateMatchScore text query = 300) ∧
    (lowerStr text ≠ lowerStr query →
      (lowerStr query).isPrefixOf (lowerStr text) = false →
      strContains (lowerStr text) (' ' :: lowerStr query) = false →
      strContains (lowerStr text) (lowerStr query) = true →
      calculateMatchScore text query = 100) ∧
    (strContains (lowerStr text) (lowerStr query) = false →
      calculateMatchScore text query = 0) ∧
    calculateMatchScore "my-repo".toList "my-repo".toList >
      calculateMatchScore "my-repo".toList "my".toList ∧
    calculateMatchScore "my-repo".toList "my".toList >
      calculateMatchScore "my-repo".toList "rep".toList ∧
    calculateMatchScore "my-repo".toList "rep".toList >
      calculateMatchScore "my-repo".toList "xyz".toList ∧
    calculateMatchScore "my-repo".toList "xyz".toList = 0 := by
  refine ⟨?_, ?_, ?_, ?_, ?_, by decide, by decide, by decide, by decide⟩
  · intro h
    unfold calculateMatchScore
    rw [if_pos h]
  · intro h1 h2
    unfold calculateMatchScore
    rw [if_neg h1, if_pos h2]
  · intro h1 h2 h3
    unfold calculateMatchScore
    rw [if_neg h1, if_neg (by simp [h2]), if_pos h3]
  · intro h1 h2 h3 h4
    unfold calculateMatchScore
    rw [if_neg h1, if_neg (by simp [h2]), if_neg (by simp [h3]), if_pos h4]
  · intro hc
    obtain ⟨h1, h2, h3⟩ := not_contains_elims hc
    unfold calculateMatchScore
    rw [if_neg h1, if_neg (by simp [h2]), if_neg (by simp [h3]),
      if_neg (by simp [hc])]

/-- Witness for claim C4: each tier realized at a concrete input. -/
theorem calculateMatchScore_tiers_witness :
    calculateMatchScore "my-repo".toList "my-repo".toList = 1000 ∧
    calculateMatchScore "my-repo".toList "my".toList = 500 ∧
    calculateMatchScore "my repo".toList "repo".toList = 300 ∧
    calculateMatchScore "my-repo".toList "rep".toList = 100 ∧
    calculateMatchScore "my-repo".toList "xyz".toList = 0 :=
  ⟨(calculateMatchScore_tiers "my-repo".toList "my-repo".toList).1 (by decide),
   (calculateMatchScore_tiers "my-repo".toList "my".toList).2.1
     (by decide) (by decide),
   (calculateMatchScore_tiers "my repo".toList "repo".toList).2.2.1
     (by decide) (by decide) (by decide),
   (calculateMatchScore_tiers "my-repo".toList "rep".toList).2.2.2.1
     (by decide) (by decide) (by decide) (by decide),
   (calculateMatchScore_tiers "my-repo".toList "xyz".toList).2.2.2.2.1
     (by decide)⟩

/-- Claim C10: match scoring is case-insensitive — scoring a text/query pair
equals scoring their lowercased forms — and a query differing from the text
only in letter case is an exact match scoring 1000. -/
theorem calculateMatchScore_case_insensitive (text query : List Char) :
    calculateMatchScore text query =
      calculateMatchScore (lowerStr text) (lowerStr query) ∧
    (lowerStr text = lowerStr query → calculateMatchScore text query = 1000) := by
  constructor
  · unfold calculateMatchScore
    rw [lowerStr_lowerStr, lowerStr_lowerStr]
  · intro h
    unfold calculateMatchScore
    rw [if_pos h]

/-- Witness for claim C10 at a pair differing only in letter case. -/
theorem calculateMatchScore_case_insensitive_witness :
    calculateMatchScore "My-Repo".toList "my-repo".toList =
      calculateMatchScore (lowerStr "My-Repo".toList)
        (lowerStr "my-repo".toList) ∧
    calculateMatchScore "My-Repo".toList "my-repo".toList = 1000 :=
  ⟨(calculateMatchScore_case_insensitive "My-Repo".toList "my-repo".toList).1,
   (calculateMatchScore_case_insensitive "My-Repo".toList "my-repo".toList).2
     (by decide)⟩

/-- Claim C5 counterexample: for the query `"42"` the PR scores
800×10 = 8000, but the substring-matching repo scores 100×100 = 10000, so
the sorted output lists the repo first — the PR does not outrank it. -/
theorem pr_outranked_by_repo_cex :
    ((searchResults ents42 "42".toList).map fun r => (r.rtype, r.score)) =
      [(RType.repo, 10000), (RType.pr, 8000)] := by decide

/-- Claim C5 (amended): the type weights are repo = 100, PR = 10,
issue = 5, so for equal positive text-match quality repositories outrank
PRs and PRs outrank issues; in the `"42"` scenario the PR scores
800×10 = 8000 while the substring-matched repo scores 100×100 = 10000, so
the repo outranks the PR. -/
theorem type_weights_scenario (m : Nat) (hm : 0 < m) :
    TYPE_WEIGHTS RType.repo = 100 ∧
    TYPE_WEIGHTS RType.pr = 10 ∧
    TYPE_WEIGHTS RType.issue = 5 ∧
    m * TYPE_WEIGHTS RType.issue < m * TYPE_WEIGHTS RType.pr ∧
    m * TYPE_WEIGHTS RType.pr < m * TYPE_WEIGHTS RType.repo ∧
    itemMatchScore pr42.title pr42.number "42".toList *
      TYPE_WEIGHTS RType.pr = 8000 ∧
    repoMatchScore repo42 "42".toList * TYPE_WEIGHTS RType.repo = 10000 ∧
    itemMatchScore pr42.title pr42.number "42".toList * TYPE_WEIGHTS RType.pr <
      repoMatchScore repo42 "42".toList * TYPE_WEIGHTS RType.repo := by
  refine ⟨rfl, rfl, rfl, ?_, ?_, by decide, by decide, by decide⟩
  · simp only [TYPE_WEIGHTS]
    omega
  · simp only [TYPE_WEIGHTS]
    omega

/-- Witness for claim C5 at match quality 100. -/
theorem type_weights_scenario_witness :
    100 * TYPE_WEIGHTS RType.issue < 100 * TYPE_WEIGHTS RType.pr ∧
    100 * TYPE_WEIGHTS RType.pr < 100 * TYPE_WEIGHTS RType.repo :=
  ⟨(type_weights_scenario 100 (by decide)).2.2.2.1,
   (type_weights_scenario 100 (by decide)).2.2.2.2.1⟩

/-- The issues counter advances by exactly one per repo, fetch failure or
not. -/
theorem issuesStep_fst (prefs : SyncPreferences) (o : RepoFetchOutcome)
    (c : Nat) : (issuesStep prefs o c).1 = c + 1 := by
  unfold issuesStep
  split_ifs
  · cases o.issuesResult <;> rfl
  · rfl

/-- The PRs counter advances by exactly one per repo, fetch failure or
not. -/
theorem prsStep_fst (prefs : SyncPreferences) (o : RepoFetchOutcome)
    (c : Nat) : (prsStep prefs o c).1 = c + 1 := by
  unfold prsStep
  split_ifs
  · cases o.prsResult <;> rfl
  · rfl

/-- What a step saves does not depend on the counter value. -/
theorem issuesStep_snd (prefs : SyncPreferences) (o : RepoFetchOutcome)
    (c c' : Nat) : (issuesStep prefs o c).2 = (issuesStep prefs o c').2 := by
  unfold issuesStep
  split_ifs
  · cases o.issuesResult <;> rfl
  · rfl

/-- What a step saves does not depend on the counter value. -/
theorem prsStep_snd (prefs : SyncPreferences) (o : RepoFetchOutcome)
    (c c' : Nat) : (prsStep prefs o c).2 = (prsStep prefs o c').2 := by
  unfold prsStep
  split_ifs
  · cases o.prsResult <;> rfl
  · rfl

/-- Closed form of the `runSync` per-repo loop: both counters advance by the
number of repos processed and the saved records are the per-repo saves in
order, whatever the mix of successes and failures. -/
theorem runSyncLoop_eq (prefs : SyncPreferences)
    (outs : List RepoFetchOutcome) (ic pc : Nat) :
    runSyncLoop prefs outs ic pc =
      (ic + outs.length, pc + outs.length,
       outs.flatMap (fun o => (issuesStep prefs o 0).2),
       outs.flatMap (fun o => (prsStep prefs o 0).2)) := by
  induction outs generalizing ic pc with
  | nil => simp [runSyncLoop]
  | cons o rest ih =>
    simp only [runSyncLoop, ih, issuesStep_fst, prsStep_fst,
      List.flatMap_cons, List.length_cons]
    rw [issuesStep_snd prefs o ic 0, prsStep_snd prefs o pc 0]
    simp only [Prod.mk.injEq]
    exact ⟨by omega, by omega, trivial⟩

/-- Claim C8: a failed fetch-or-save of one repo's issues or PRs is absorbed
by its step (the loop is a total function of the outcomes), the counter for
that repo is still incremented, every repo's saves appear in order, and both
progress counters reach the number of indexed repos. -/
theorem runSyncLoop_progress (prefs : SyncPreferences)
    (outcomes : List RepoFetchOutcome) :
    (∀ (o : RepoFetchOutcome) (c : Nat), (issuesStep prefs o c).1 = c + 1) ∧
    (∀ (o : RepoFetchOutcome) (c : Nat), (prsStep prefs o c).1 = c + 1) ∧
    (runSyncLoop prefs outcomes 0 0).1 = outcomes.length ∧
    (runSyncLoop prefs outcomes 0 0).2.1 = outcomes.length ∧
    (runSyncLoop prefs outcomes 0 0).2.2.1 =
      outcomes.flatMap (fun o => (issuesStep prefs o 0).2) ∧
    (runSyncLoop prefs outcomes 0 0).2.2.2 =
      outcomes.flatMap (fun o => (prsStep prefs o 0).2) := by
  have h := runSyncLoop_eq prefs outcomes 0 0
  refine ⟨issuesStep_fst prefs, prsStep_fst prefs, ?_, ?_, ?_, ?_⟩ <;>
    rw [h] <;> simp

/-- Claim C7 counterexample: a `repo_processed` progress event arriving 500
milliseconds after the previous progress update is throttled away and leaves
the cached first result in place, so not every sync progress event clears
the cache. -/
theorem throttled_progress_keeps_cache_cex :
    handleImportProgress ProgressEvent.repo_processed 1500
        ⟨some itemA, 1000, 0⟩ = ⟨some itemA, 1000, 0⟩ ∧
    (handleImportProgress ProgressEvent.repo_processed 1500
        ⟨some itemA, 1000, 0⟩).firstResult ≠ none :=
  ⟨by decide, by decide⟩

/-- Claim C7 (amended): a recorded visit always clears the cached first
result; a progress event clears it unless it is a `repo_processed` event
inside the 2-second throttle window, in which case it changes nothing; and
the cache is never incrementally patched — every handler leaves it
untouched, clears it, or replaces it whole with the first-to-cache result of
a fresh empty-query search. -/
theorem cache_invalidation_policy (s : BackgroundCacheState)
    (e : ProgressEvent) (now : Int) (results : List SearchResultItem)
    (cur : Option (List Char)) :
    (handleRecordVisit s).firstResult = none ∧
    ((e = ProgressEvent.repos_saved ∨
        SYNC_PROGRESS_THROTTLE_MS ≤ now - s.lastSyncProgressUpdate) →
      (handleImportProgress e now s).firstResult = none) ∧
    (handleImportProgress e now s = s ∨
      (handleImportProgress e now s).firstResult = none) ∧
    ((handleEmptyQuerySearch results cur s).firstResult = s.firstResult ∨
      (handleEmptyQuerySearch results cur s).firstResult =
        getFirstResultToCache results cur) := by
  refine ⟨rfl, ?_, ?_, ?_⟩
  · intro h
    unfold handleImportProgress
    rw [if_neg]
    rintro ⟨h1, h2⟩
    rcases h with h | h
    · rw [h] at h1
      cases h1
    · omega
  · unfold handleImportProgress
    split_ifs
    · exact Or.inl rfl
    · exact Or.inr rfl
  · unfold handleEmptyQuerySearch
    split_ifs
    · exact Or.inl rfl
    · cases hg : getFirstResultToCache results cur
      · exact Or.inl rfl
      · exact Or.inr (by simp)

/-- Witness for claim C7: a visit and an un-throttled progress event clear a
concretely populated cache. -/
theorem cache_invalidation_policy_witness :
    (handleRecordVisit ⟨some itemA, 1000, 0⟩).firstResult = none ∧
    (handleImportProgress ProgressEvent.repos_saved 1500
        ⟨some itemA, 1000, 0⟩).firstResult = none ∧
    (handleImportProgress ProgressEvent.repo_processed 5000
        ⟨some itemA, 1000, 0⟩).firstResult = none :=
  ⟨(cache_invalidation_policy ⟨some itemA, 1000, 0⟩
      ProgressEvent.repos_saved 1500 [] none).1,
   (cache_invalidation_policy ⟨some itemA, 1000, 0⟩
      ProgressEvent.repos_saved 1500 [] none).2.1 (Or.inl rfl),
   (cache_invalidation_policy ⟨some itemA, 1000, 0⟩
      ProgressEvent.repo_processed 5000 [] none).2.1 (Or.inr (by decide))⟩

/-! ## Search pipeline lemmas for the ordering claim -/

/-- Every repo row produced under a non-empty query has positive score. -/
theorem repoResult_score_pos (repo : RepoRec) (nq : List Char)
    (hnq : nq.isEmpty = false) {r : SearchResultItem}
    (hr : r ∈ repoResult repo nq) : 0 < r.score := by
  unfold repoResult at hr
  split_ifs at hr with hc
  · rw [List.mem_singleton] at hr
    subst hr
    simp only [hnq, Bool.false_or, decide_eq_true_eq] at hc
    exact Nat.mul_pos hc (by decide)
  · cases hr

/-- A positive item match score follows from a positive title score or a
number match. -/
theorem itemMatchScore_pos (title : List Char) (n : Nat) (nq : List Char)
    (h : 0 < calculateMatchScore title nq ∨ numberMatches n nq = true) :
    0 < itemMatchScore title n nq := by
  unfold itemMatchScore
  cases hm : numberMatches n nq
  · rw [if_neg (by simp)]
    rcases h with h | h
    · exact h
    · rw [hm] at h
      cases h
  · rw [if_pos rfl]
    decide

/-- Every PR row produced under a non-empty query has positive score. -/
theorem prResult_score_pos (repo : RepoRec) (pr : ItemRec) (nq : List Char)
    (hnq : nq.isEmpty = false) {r : SearchResultItem}
    (hr : r ∈ prResult repo pr nq) : 0 < r.score := by
  unfold prResult at hr
  split_ifs at hr with hc
  · rw [List.mem_singleton] at hr
    subst hr
    simp only [hnq, Bool.false_or, Bool.or_eq_true, decide_eq_true_eq] at hc
    exact Nat.mul_pos (itemMatchScore_pos pr.title pr.number nq hc) (by decide)
  · cases hr

/-- Every issue row produced under a non-empty query has positive score. -/
theorem issueResult_score_pos (repo : RepoRec) (issue : ItemRec)
    (nq : List Char) (hnq : nq.isEmpty = false) {r : SearchResultItem}
    (hr : r ∈ issueResult repo issue nq) : 0 < r.score := by
  unfold issueResult at hr
  split_ifs at hr with hc
  · rw [List.mem_singleton] at hr
    subst hr
    simp only [hnq, Bool.false_or, Bool.or_eq_true, decide_eq_true_eq] at hc
    exact Nat.mul_pos (itemMatchScore_pos issue.title issue.number nq hc)
      (by decide)
  · cases hr

/-- Under a non-empty query, every row built by `buildSearchResults` has a
positive score. -/
theorem build_score_pos (entities : List SearchEntity) (q : List Char)
    (h : trimStr q ≠ []) {r : SearchResultItem}
    (hr : r ∈ buildSearchResults entities q) : 0 < r.score := by
  have hnq : (lowerStr (trimStr q)).isEmpty = false := by
    rw [List.isEmpty_eq_false]
    intro hh
    exact h ((lowerStr_eq_nil_iff (trimStr q)).mp hh)
  unfold buildSearchResults at hr
  rw [List.mem_flatMap] at hr
  obtain ⟨e, -, hr⟩ := hr
  rw [List.mem_append] at hr
  rcases hr with hr | hr
  · rw [List.mem_append] at hr
    rcases hr with hr | hr
    · exact repoResult_score_pos e.repo _ hnq hr
    · rw [List.mem_flatMap] at hr
      obtain ⟨pr, -, hr⟩ := hr
      exact prResult_score_pos e.repo pr _ hnq hr
  · rw [List.mem_flatMap] at hr
    obtain ⟨issue, -, hr⟩ := hr
    exact issueResult_score_pos e.repo issue _ hnq hr

/-- A flat map whose pieces are singletons preserves length. -/
theorem length_flatMap_singleton {α β : Type} (l : List α) (f : α → List β)
    (h : ∀ x ∈ l, (f x).length = 1) : (l.flatMap f).length = l.length := by
  induction l with
  | nil => rfl
  | cons a t ih =>
    rw [List.flatMap_cons, List.length_append, h a (List.mem_cons_self a t),
      ih fun x hx => h x (List.mem_cons_of_mem a hx), List.length_cons]
    omega

/-- With an empty query, `buildSearchResults` emits one row per candidate. -/
theorem build_empty_length (entities : List SearchEntity) (q : List Char)
    (h : trimStr q = []) :
    (buildSearchResults entities q).length = totalCandidates entities := by
  have hnq : lowerStr (trimStr q) = [] := by rw [h]; rfl
  unfold buildSearchResults totalCandidates
  simp only [hnq]
  induction entities with
  | nil => rfl
  | cons e rest ih =>
    rw [List.flatMap_cons, List.length_append, List.map_cons, List.sum_cons,
      ih, List.length_append, List.length_append]
    rw [length_flatMap_singleton e.prs
        (fun pr => prResult e.repo pr []) fun pr _ => rfl,
      length_flatMap_singleton e.issues
        (fun issue => issueResult e.repo issue []) fun issue _ => rfl]
    rfl

/-- With a non-empty query the pipeline's output is sorted by score, ties
broken by recency. -/
theorem searchResults_sorted_of_query (entities : List SearchEntity)
    (q : List Char) (h : trimStr q ≠ []) :
    (searchResults entities q).Pairwise scoreRecencyGe := by
  unfold searchResults sortResults
  have hb : (!(trimStr q).isEmpty) = true := by
    rw [Bool.not_eq_true', List.isEmpty_eq_false]
    exact h
  rw [hb]
  exact List.Pairwise.imp (fun hab => (resLE_true_iff _ _).mp hab)
    (List.sorted_insertionSort (resLE true) (buildSearchResults entities q))

/-- With an empty query the pipeline's output is sorted by recency alone. -/
theorem searchResults_sorted_empty (entities : List SearchEntity)
    (q : List Char) (h : trimStr q = []) :
    (searchResults entities q).Pairwise recencyGe := by
  unfold searchResults sortResults
  have hb : (!(trimStr q).isEmpty) = false := by rw [h]; rfl
  rw [hb]
  exact List.Pairwise.imp (fun hab => (resLE_false_iff _ _).mp hab)
    (List.sorted_insertionSort (resLE false) (buildSearchResults entities q))

/-- Claim C6: with a non-empty query the sorted output is non-increasing in
score with ties broken by last-visited (missing as 0) then updated
descending, and every emitted row has positive score; with an empty query
every candidate is included and the ordering is purely last-visited then
updated descending; and a row whose match score is zero with no number
match is not emitted at all under a non-empty normalized query. -/
theorem searchResults_ordering (entities : List SearchEntity)
    (q : List Char) :
    (trimStr q ≠ [] →
      (searchResults entities q).Pairwise scoreRecencyGe ∧
      ∀ r ∈ searchResults entities q, 0 < r.score) ∧
    (trimStr q = [] →
      (searchResults entities q).Pairwise recencyGe ∧
      (searchResults entities q).length = totalCandidates entities) ∧
    (∀ (repo : RepoRec) (pr : ItemRec) (nq : List Char), nq ≠ [] →
      calculateMatchScore pr.title nq = 0 →
      numberMatches pr.number nq = false → prResult repo pr nq = []) ∧
    (∀ (repo : RepoRec) (issue : ItemRec) (nq : List Char), nq ≠ [] →
      calculateMatchScore issue.title nq = 0 →
      numberMatches issue.number nq = false → issueResult repo issue nq = []) ∧
    (∀ (repo : RepoRec) (nq : List Char), nq ≠ [] →
      repoMatchScore repo nq = 0 → repoResult repo nq = []) := by
  refine ⟨fun h => ⟨searchResults_sorted_of_query entities q h, ?_⟩,
    fun h => ⟨searchResults_sorted_empty entities q h, ?_⟩, ?_, ?_, ?_⟩
  · intro r hr
    unfold searchResults sortResults at hr
    rw [List.mem_insertionSort] at hr
    exact build_score_pos entities q h hr
  · unfold searchResults sortResults
    rw [List.length_insertionSort]
    exact build_empty_length entities q h
  · intro repo pr nq hn hcalc hnum
    unfold prResult
    rw [if_neg]
    simp [List.isEmpty_eq_false.mpr hn, hcalc, hnum]
  · intro repo issue nq hn hcalc hnum
    unfold issueResult
    rw [if_neg]
    simp [List.isEmpty_eq_false.mpr hn, hcalc, hnum]
  · intro repo nq hn hscore
    unfold repoResult
    rw [if_neg]
    simp [List.isEmpty_eq_false.mpr hn, hscore]

/-- Witness for claim C6: the ordering facts instantiated on a concrete
entity list, once with the query `"alpha"` and once with the empty query. -/
theorem searchResults_ordering_witness :
    ((searchResults ents0 "alpha".toList).Pairwise scoreRecencyGe ∧
      ∀ r ∈ searchResults ents0 "alpha".toList, 0 < r.score) ∧
    ((searchResults ents0 []).Pairwise recencyGe ∧
      (searchResults ents0 []).length = totalCandidates ents0) :=
  ⟨(searchResults_ordering ents0 "alpha".toList).1 (by decide),
   (searchResults_ordering ents0 []).2.1 rfl⟩

end GitLookAround
